import Mathlib

/-!
Shallow embedding of the river_bank_system account/ledger core.

Embedded modules:
* `users.py` (`UsersDB`): the `tbl_accounts` table plus its column-level
  accessors and balance adjusters.
* `transactions.py` (`TransactionsDB`): the `tbl_transactions` table,
  `log_transaction` and `get_transactions`.
* `actions.py` (`Actions`): `deposit_into_account`, `withdraw_from_account`,
  `transfer_between_accounts`.

Modelling decisions:
* SQLite REAL amounts/balances are modelled as exact integers (`Money := Int`);
  the core only adds and negates amounts, so the additive structure is what the
  claims are about.  Timestamps are integers (seconds since the epoch, UTC).
* Python exceptions are modelled by returning the pair
  `(state at the moment of the raise, some error)`: a raise does not undo
  mutations that already happened, exactly as in Python.
* The state carries a ghost `trace : List StoreEvent` recording the order of
  durable store mutations (UPDATE / INSERT statements).  It exists only to
  express ordering properties; no embedded function reads it.
* Storage faults (`sqlite3.OperationalError`) are out of the faultless model
  except where a claim is about them: `get_transactions` takes an explicit
  `fault` flag for its `except` branch, which returns `[]`.
-/

namespace RiverBank

/-- SQLite REAL money values, modelled as exact integers. -/
abbrev Money := Int

/-- One row of `tbl_accounts` (users.py, `CREATE TABLE tbl_accounts`). -/
structure AccountRec where
  id : Nat
  username : String
  display_name : String
  password_hash : String
  current_balance : Money
  savings_balance : Money
deriving DecidableEq

/-- One row of `tbl_transactions` (transactions.py, `CREATE TABLE
tbl_transactions`).  `timestamp` is assigned by the store
(`DATETIME DEFAULT CURRENT_TIMESTAMP`), never by the caller. -/
structure TransactionRec where
  id : Nat
  username : String
  transaction_type : String
  amount : Money
  account : String
  timestamp : Int
deriving DecidableEq

/-- Ghost record of one durable store mutation, used to state ordering
properties (which SQL write ran before which). -/
inductive StoreEvent where
  | colWrite (column : String) (username : String)
  | ledgerInsert (username : String)
  | accountInsert (username : String)
deriving DecidableEq

/-- The persistent database state shared by `UsersDB` and `TransactionsDB`
(both connect to the same `DATABASE_PATH`), plus the store clock `now` and the
ghost mutation trace. -/
structure DBState where
  accounts : List AccountRec
  nextAccountId : Nat
  transactions : List TransactionRec
  nextTransId : Nat
  now : Int
  trace : List StoreEvent
deriving DecidableEq

/-- The error taxonomy of the core, naming each Python raise site:
`invalidAmount` and `invalidAccountSelector` are the `ValueError`s of
actions.py; `invalidColumn` is the `ValueError` of
`get_column_from_username`/`set_column_from_username`; `duplicateUser` is the
`sqlite3.IntegrityError` from the UNIQUE constraint on `username` (not caught
by `create_new_user`, whose handler only catches `OperationalError`);
`noneBalance` is the `TypeError` from `float(None)` when a balance getter runs
for a username with no row. -/
inductive DBError where
  | invalidAmount
  | invalidAccountSelector
  | invalidColumn (column : String)
  | duplicateUser (username : String)
  | noneBalance
deriving DecidableEq

/-- A dynamically typed SQLite column value. -/
inductive ColumnValue where
  | intV (n : Nat)
  | strV (s : String)
  | numV (q : Money)
deriving DecidableEq

/-- Python `float(...)` applied to a column value: numeric values convert,
`None` (absence) and non-numeric strings raise. -/
def ColumnValue.toMoney : ColumnValue → Option Money
  | .numV q => some q
  | .intV n => some (n : Int)
  | .strV _ => none

/-- users.py line 15: the allow-list of queryable columns. -/
def ALLOWED_COLUMNS : List String :=
  ["id", "username", "display_name", "password_hash", "current_balance", "savings_balance"]

/-- Reading one column of an account row (`SELECT {column} FROM tbl_accounts`). -/
def readColumn (column : String) (a : AccountRec) : ColumnValue :=
  if column = "id" then .intV a.id
  else if column = "username" then .strV a.username
  else if column = "display_name" then .strV a.display_name
  else if column = "password_hash" then .strV a.password_hash
  else if column = "current_balance" then .numV a.current_balance
  else .numV a.savings_balance

/-- Writing one column of an account row
(`UPDATE tbl_accounts SET {column} = ?`). -/
def applyColumn (column : String) (v : ColumnValue) (a : AccountRec) : AccountRec :=
  if column = "id" then match v with | .intV n => { a with id := n } | _ => a
  else if column = "username" then match v with | .strV x => { a with username := x } | _ => a
  else if column = "display_name" then match v with | .strV x => { a with display_name := x } | _ => a
  else if column = "password_hash" then match v with | .strV x => { a with password_hash := x } | _ => a
  else if column = "current_balance" then match v with | .numV q => { a with current_balance := q } | _ => a
  else match v with | .numV q => { a with savings_balance := q } | _ => a

/-- users.py `UsersDB.get_column_from_username`: raises on a disallowed
column, otherwise returns the column of the first row matching the username
(`fetchone`), or `none` when no row matches. -/
def get_column_from_username (column : String) (target_username : String)
    (s : DBState) : Except DBError (Option ColumnValue) :=
  if column ∉ ALLOWED_COLUMNS then .error (.invalidColumn column)
  else .ok ((s.accounts.find? fun a => a.username == target_username).map (readColumn column))

/-- users.py `UsersDB.set_column_from_username`: raises on a disallowed
column, otherwise runs `UPDATE ... WHERE username = ?`, which rewrites every
matching row and is a silent no-op when none matches. -/
def set_column_from_username (column : String) (target_username : String)
    (new_data : ColumnValue) (s : DBState) : DBState × Option DBError :=
  if column ∉ ALLOWED_COLUMNS then (s, some (.invalidColumn column))
  else
    ({ s with
        accounts := s.accounts.map fun a =>
          if a.username == target_username then applyColumn column new_data a else a,
        trace := s.trace ++ [.colWrite column target_username] }, none)

/-- users.py `UsersDB.get_current_balance`:
`float(self.get_column_from_username('current_balance', username))` —
the `float(...)` call raises a `TypeError` when the lookup returned `None`. -/
def get_current_balance (username : String) (s : DBState) : Except DBError Money :=
  match get_column_from_username "current_balance" username s with
  | .error e => .error e
  | .ok v =>
    match v.bind ColumnValue.toMoney with
    | some q => .ok q
    | none => .error .noneBalance

/-- users.py `UsersDB.get_savings_balance`, same shape as
`get_current_balance`. -/
def get_savings_balance (username : String) (s : DBState) : Except DBError Money :=
  match get_column_from_username "savings_balance" username s with
  | .error e => .error e
  | .ok v =>
    match v.bind ColumnValue.toMoney with
    | some q => .ok q
    | none => .error .noneBalance

/-- users.py `UsersDB.get_user_exists`. -/
def get_user_exists (username : String) (s : DBState) : Bool :=
  match get_column_from_username "username" username s with
  | .ok (some _) => true
  | _ => false

/-- users.py `UsersDB.add_current_balance`: read the current balance, add
`balance` (possibly negative), write the sum back. -/
def add_current_balance (username : String) (balance : Money)
    (s : DBState) : DBState × Option DBError :=
  match get_current_balance username s with
  | .error e => (s, some e)
  | .ok previous_balance =>
      set_column_from_username "current_balance" username
        (.numV (previous_balance + balance)) s

/-- users.py `UsersDB.add_savings_balance`, same shape as
`add_current_balance`. -/
def add_savings_balance (username : String) (balance : Money)
    (s : DBState) : DBState × Option DBError :=
  match get_savings_balance username s with
  | .error e => (s, some e)
  | .ok previous_balance =>
      set_column_from_username "savings_balance" username
        (.numV (previous_balance + balance)) s

/-- users.py `UsersDB.create_new_user`: an `INSERT` of a fresh row.  The
UNIQUE constraint on `username` rejects a duplicate with an
`sqlite3.IntegrityError`, which the method does not catch (its handler catches
only `OperationalError`); the transaction context rolls the insert back, so on
a duplicate the state is unchanged.  The bcrypt hash is the pluggable
credential capability, passed in as `hashFn`. -/
def create_new_user (hashFn : String → String) (username : String)
    (display_name : String) (password : String) (current_balance : Money)
    (savings_balance : Money) (s : DBState) : DBState × Option DBError :=
  if s.accounts.any fun a => a.username == username then
    (s, some (.duplicateUser username))
  else
    ({ s with
        accounts := s.accounts ++
          [⟨s.nextAccountId, username, display_name, hashFn password,
            current_balance, savings_balance⟩],
        nextAccountId := s.nextAccountId + 1,
        trace := s.trace ++ [.accountInsert username] }, none)

/-- transactions.py `TransactionsDB.log_transaction`: an `INSERT` into
`tbl_transactions`; the store assigns the id and the timestamp (`now`). -/
def log_transaction (username : String) (transaction_type : String)
    (amount : Money) (account : String) (s : DBState) : DBState :=
  { s with
      transactions := s.transactions ++
        [⟨s.nextTransId, username, transaction_type, amount, account, s.now⟩],
      nextTransId := s.nextTransId + 1,
      trace := s.trace ++ [.ledgerInsert username] }

/-- The cutoff of the SQL filter `timestamp >= date('now','-7 days')`:
`date('now','-7 days')` is a date-only string, so the string comparison
against a `YYYY-MM-DD HH:MM:SS` timestamp keeps exactly the timestamps on or
after midnight UTC of the day seven days before `now`. -/
def sqlDateCutoff (now : Int) : Int := (Int.fdiv now 86400 - 7) * 86400

/-- transactions.py `TransactionsDB.get_transactions`: rows of the user whose
timestamp passes the SQL date cutoff, `ORDER BY timestamp DESC`; when the read
hits an `OperationalError` (`fault = true`) the handler logs and returns `[]`. -/
def get_transactions (fault : Bool) (username : String)
    (s : DBState) : List TransactionRec :=
  if fault then []
  else
    (s.transactions.filter fun t =>
        t.username == username && decide (sqlDateCutoff s.now ≤ t.timestamp)).mergeSort
      fun a b => decide (b.timestamp ≤ a.timestamp)

/-- actions.py `Actions.deposit_into_account`.  The trailing `(s, none)`
branch mirrors Python's `if/elif` with no `else`: unreachable after the
selector check, a silent no-op if it could run. -/
def deposit_into_account (username : String) (value : Money)
    (target_account : String) (s : DBState) : DBState × Option DBError :=
  if value ≤ 0 then (s, some .invalidAmount)
  else if target_account ∉ (["current", "savings"] : List String) then
    (s, some .invalidAccountSelector)
  else if target_account = "current" then
    match add_current_balance username value s with
    | (s1, some e) => (s1, some e)
    | (s1, none) => (log_transaction username "deposit" value "current" s1, none)
  else if target_account = "savings" then
    match add_savings_balance username value s with
    | (s1, some e) => (s1, some e)
    | (s1, none) => (log_transaction username "deposit" value "savings" s1, none)
  else (s, none)

/-- actions.py `Actions.withdraw_from_account`: adds the negated amount, logs
the positive magnitude. -/
def withdraw_from_account (username : String) (value : Money)
    (target_account : String) (s : DBState) : DBState × Option DBError :=
  if value ≤ 0 then (s, some .invalidAmount)
  else if target_account ∉ (["current", "savings"] : List String) then
    (s, some .invalidAccountSelector)
  else if target_account = "current" then
    match add_current_balance username (-value) s with
    | (s1, some e) => (s1, some e)
    | (s1, none) => (log_transaction username "withdraw" value "current" s1, none)
  else if target_account = "savings" then
    match add_savings_balance username (-value) s with
    | (s1, some e) => (s1, some e)
    | (s1, none) => (log_transaction username "withdraw" value "savings" s1, none)
  else (s, none)

/-- actions.py `Actions.transfer_between_accounts`: debits the source
account, credits the other, then logs one `transfer` record.  In the
`savings` branch the source performs the credit before the debit. -/
def transfer_between_accounts (username : String) (value : Money)
    (source_account : String) (s : DBState) : DBState × Option DBError :=
  if value ≤ 0 then (s, some .invalidAmount)
  else if source_account ∉ (["current", "savings"] : List String) then
    (s, some .invalidAccountSelector)
  else if source_account = "current" then
    match add_current_balance username (-value) s with
    | (s1, some e) => (s1, some e)
    | (s1, none) =>
      match add_savings_balance username value s1 with
      | (s2, some e) => (s2, some e)
      | (s2, none) =>
        (log_transaction username "transfer" value "current_to_savings" s2, none)
  else if source_account = "savings" then
    match add_current_balance username value s with
    | (s1, some e) => (s1, some e)
    | (s1, none) =>
      match add_savings_balance username (-value) s1 with
      | (s2, some e) => (s2, some e)
      | (s2, none) =>
        (log_transaction username "transfer" value "savings_to_current" s2, none)
  else (s, none)

/-- The pair (current_balance, savings_balance) of the first account row
matching `username`, used to state balance effects. -/
def balancesOf (username : String) (s : DBState) : Option (Money × Money) :=
  (s.accounts.find? fun a => a.username == username).map fun a =>
    (a.current_balance, a.savings_balance)

/-- Example account used by concrete witnesses. -/
def exAlice : AccountRec := ⟨1, "alice", "Alice", "h", 100, 50⟩

/-- Example database state used by concrete witnesses. -/
def exState : DBState := ⟨[exAlice], 2, [], 1, 1000000000, []⟩

theorem get_column_from_username_allowed (c u : String) (s : DBState)
    (hc : c ∈ ALLOWED_COLUMNS) :
    get_column_from_username c u s =
      .ok ((s.accounts.find? fun a => a.username == u).map (readColumn c)) := by
  simp [get_column_from_username, hc]

theorem readColumn_current (a : AccountRec) :
    readColumn "current_balance" a = .numV a.current_balance := by
  simp [readColumn]

theorem readColumn_savings (a : AccountRec) :
    readColumn "savings_balance" a = .numV a.savings_balance := by
  simp [readColumn]

theorem applyColumn_current (q : Money) (a : AccountRec) :
    applyColumn "current_balance" (.numV q) a = { a with current_balance := q } := by
  simp [applyColumn]

theorem applyColumn_savings (q : Money) (a : AccountRec) :
    applyColumn "savings_balance" (.numV q) a = { a with savings_balance := q } := by
  simp [applyColumn]

theorem find?_update (u : String) (g : AccountRec → AccountRec) (l : List AccountRec)
    (hg : ∀ a : AccountRec, (g a).username = a.username) :
    (l.map fun a => if a.username == u then g a else a).find? (fun a => a.username == u)
      = (l.find? fun a => a.username == u).map g := by
  induction l with
  | nil => rfl
  | cons a l ih =>
    simp only [List.map_cons]
    by_cases h : (a.username == u) = true
    · have hga : ((g a).username == u) = true := by rw [hg]; exact h
      rw [if_pos h, List.find?_cons_of_pos (p := fun x : AccountRec => x.username == u) _ hga,
        List.find?_cons_of_pos (p := fun x : AccountRec => x.username == u) _ h]
      rfl
    · rw [if_neg h, List.find?_cons_of_neg (p := fun x : AccountRec => x.username == u) _ h,
        List.find?_cons_of_neg (p := fun x : AccountRec => x.username == u) _ h, ih]

/-- Proof-side abbreviation: the account list after the `UPDATE` that sets the
current balance of every row of `u` to `q`. -/
def updCur (u : String) (q : Money) (l : List AccountRec) : List AccountRec :=
  l.map fun x => if x.username == u then { x with current_balance := q } else x

/-- Proof-side abbreviation: the account list after the `UPDATE` that sets the
savings balance of every row of `u` to `q`. -/
def updSav (u : String) (q : Money) (l : List AccountRec) : List AccountRec :=
  l.map fun x => if x.username == u then { x with savings_balance := q } else x

theorem find?_updCur (u : String) (q : Money) (l : List AccountRec) (a : AccountRec)
    (ha : l.find? (fun x => x.username == u) = some a) :
    (updCur u q l).find? (fun x => x.username == u) =
      some { a with current_balance := q } := by
  rw [updCur, find?_update u (fun x => { x with current_balance := q }) l (fun x => rfl), ha]
  rfl

theorem find?_updSav (u : String) (q : Money) (l : List AccountRec) (a : AccountRec)
    (ha : l.find? (fun x => x.username == u) = some a) :
    (updSav u q l).find? (fun x => x.username == u) =
      some { a with savings_balance := q } := by
  rw [updSav, find?_update u (fun x => { x with savings_balance := q }) l (fun x => rfl), ha]
  rfl

theorem get_current_balance_found (u : String) (s : DBState) (a : AccountRec)
    (ha : s.accounts.find? (fun x => x.username == u) = some a) :
    get_current_balance u s = .ok a.current_balance := by
  rw [get_current_balance, get_column_from_username_allowed _ _ _ (by decide), ha]
  simp [readColumn_current, ColumnValue.toMoney]

theorem get_savings_balance_found (u : String) (s : DBState) (a : AccountRec)
    (ha : s.accounts.find? (fun x => x.username == u) = some a) :
    get_savings_balance u s = .ok a.savings_balance := by
  rw [get_savings_balance, get_column_from_username_allowed _ _ _ (by decide), ha]
  simp [readColumn_savings, ColumnValue.toMoney]

theorem add_current_balance_found (u : String) (b : Money) (s : DBState) (a : AccountRec)
    (ha : s.accounts.find? (fun x => x.username == u) = some a) :
    add_current_balance u b s =
      ({ s with
          accounts := updCur u (a.current_balance + b) s.accounts,
          trace := s.trace ++ [.colWrite "current_balance" u] }, none) := by
  unfold add_current_balance
  simp only [get_current_balance_found u s a ha]
  unfold set_column_from_username
  rw [if_neg (show ¬ ("current_balance" ∉ ALLOWED_COLUMNS) from by decide)]
  simp only [updCur, applyColumn_current]

theorem add_savings_balance_found (u : String) (b : Money) (s : DBState) (a : AccountRec)
    (ha : s.accounts.find? (fun x => x.username == u) = some a) :
    add_savings_balance u b s =
      ({ s with
          accounts := updSav u (a.savings_balance + b) s.accounts,
          trace := s.trace ++ [.colWrite "savings_balance" u] }, none) := by
  unfold add_savings_balance
  simp only [get_savings_balance_found u s a ha]
  unfold set_column_from_username
  rw [if_neg (show ¬ ("savings_balance" ∉ ALLOWED_COLUMNS) from by decide)]
  simp only [updSav, applyColumn_savings]

/-- C1: for every amount > 0, every target in {current, savings}, and every
existing user, deposit succeeds, increases the selected balance by exactly the
amount, leaves the other balance unchanged, and appends exactly one ledger
record with kind `deposit`, the same amount, and account label equal to the
target. -/
theorem deposit_correct (u : String) (amt : Money) (target : String)
    (s : DBState) (a : AccountRec)
    (hamt : 0 < amt)
    (htarget : target = "current" ∨ target = "savings")
    (ha : s.accounts.find? (fun x => x.username == u) = some a) :
    (deposit_into_account u amt target s).2 = none ∧
    balancesOf u (deposit_into_account u amt target s).1 =
      some (if target = "current" then (a.current_balance + amt, a.savings_balance)
            else (a.current_balance, a.savings_balance + amt)) ∧
    (deposit_into_account u amt target s).1.transactions =
      s.transactions ++ [⟨s.nextTransId, u, "deposit", amt, target, s.now⟩] := by
  have hle : ¬ (amt ≤ 0) := not_le.mpr hamt
  rcases htarget with h | h <;> subst h
  · rw [deposit_into_account, if_neg hle,
      if_neg (show ¬ ("current" ∉ (["current", "savings"] : List String)) from by decide),
      if_pos (show "current" = "current" from rfl),
      add_current_balance_found u amt s a ha]
    refine ⟨rfl, ?_, rfl⟩
    simp only [log_transaction, balancesOf]
    rw [find?_updCur u (a.current_balance + amt) s.accounts a ha]
    rfl
  · rw [deposit_into_account, if_neg hle,
      if_neg (show ¬ ("savings" ∉ (["current", "savings"] : List String)) from by decide),
      if_neg (show ¬ ("savings" = "current") from by decide),
      if_pos (show "savings" = "savings" from rfl),
      add_savings_balance_found u amt s a ha]
    refine ⟨rfl, ?_, rfl⟩
    simp only [log_transaction, balancesOf]
    rw [find?_updSav u (a.savings_balance + amt) s.accounts a ha]
    rfl

/-- Witness for C1: alice (current 100, savings 50) deposits 25 into current. -/
theorem deposit_correct_witness :
    (deposit_into_account "alice" 25 "current" exState).2 = none ∧
    balancesOf "alice" (deposit_into_account "alice" 25 "current" exState).1 =
      some (125, 50) ∧
    (deposit_into_account "alice" 25 "current" exState).1.transactions =
      [⟨1, "alice", "deposit", 25, "current", 1000000000⟩] := by
  have h := deposit_correct "alice" 25 "current" exState exAlice (by decide)
    (Or.inl rfl) (by decide)
  simpa [exState, exAlice] using h

theorem deposit_savings_state (u : String) (amt : Money) (s : DBState) (a : AccountRec)
    (hle : ¬ amt ≤ 0)
    (ha : s.accounts.find? (fun x => x.username == u) = some a) :
    deposit_into_account u amt "savings" s =
      ({ s with
          accounts := updSav u (a.savings_balance + amt) s.accounts,
          transactions := s.transactions ++
            [⟨s.nextTransId, u, "deposit", amt, "savings", s.now⟩],
          nextTransId := s.nextTransId + 1,
          trace := s.trace ++ [.colWrite "savings_balance" u, .ledgerInsert u] }, none) := by
  rw [deposit_into_account, if_neg hle,
    if_neg (show ¬ ("savings" ∉ (["current", "savings"] : List String)) from by decide),
    if_neg (show ¬ ("savings" = "current") from by decide),
    if_pos (show "savings" = "savings" from rfl),
    add_savings_balance_found u amt s a ha]
  simp [log_transaction]

theorem withdraw_current_state (u : String) (amt : Money) (s : DBState) (a : AccountRec)
    (hle : ¬ amt ≤ 0)
    (ha : s.accounts.find? (fun x => x.username == u) = some a) :
    withdraw_from_account u amt "current" s =
      ({ s with
          accounts := updCur u (a.current_balance + -amt) s.accounts,
          transactions := s.transactions ++
            [⟨s.nextTransId, u, "withdraw", amt, "current", s.now⟩],
          nextTransId := s.nextTransId + 1,
          trace := s.trace ++ [.colWrite "current_balance" u, .ledgerInsert u] }, none) := by
  rw [withdraw_from_account, if_neg hle,
    if_neg (show ¬ ("current" ∉ (["current", "savings"] : List String)) from by decide),
    if_pos (show "current" = "current" from rfl),
    add_current_balance_found u (-amt) s a ha]
  simp [log_transaction]

theorem withdraw_savings_state (u : String) (amt : Money) (s : DBState) (a : AccountRec)
    (hle : ¬ amt ≤ 0)
    (ha : s.accounts.find? (fun x => x.username == u) = some a) :
    withdraw_from_account u amt "savings" s =
      ({ s with
          accounts := updSav u (a.savings_balance + -amt) s.accounts,
          transactions := s.transactions ++
            [⟨s.nextTransId, u, "withdraw", amt, "savings", s.now⟩],
          nextTransId := s.nextTransId + 1,
          trace := s.trace ++ [.colWrite "savings_balance" u, .ledgerInsert u] }, none) := by
  rw [withdraw_from_account, if_neg hle,
    if_neg (show ¬ ("savings" ∉ (["current", "savings"] : List String)) from by decide),
    if_neg (show ¬ ("savings" = "current") from by decide),
    if_pos (show "savings" = "savings" from rfl),
    add_savings_balance_found u (-amt) s a ha]
  simp [log_transaction]

theorem transfer_current_state (u : String) (amt : Money) (s : DBState) (a : AccountRec)
    (hle : ¬ amt ≤ 0)
    (ha : s.accounts.find? (fun x => x.username == u) = some a) :
    transfer_between_accounts u amt "current" s =
      ({ s with
          accounts := updSav u (a.savings_balance + amt)
            (updCur u (a.current_balance + -amt) s.accounts),
          transactions := s.transactions ++
            [⟨s.nextTransId, u, "transfer", amt, "current_to_savings", s.now⟩],
          nextTransId := s.nextTransId + 1,
          trace := s.trace ++ [.colWrite "current_balance" u, .colWrite "savings_balance" u,
            .ledgerInsert u] }, none) := by
  rw [transfer_between_accounts, if_neg hle,
    if_neg (show ¬ ("current" ∉ (["current", "savings"] : List String)) from by decide),
    if_pos (show "current" = "current" from rfl)]
  simp only [add_current_balance_found u (-amt) s a ha]
  simp only [add_savings_balance_found u amt
    ({ s with
        accounts := updCur u (a.current_balance + -amt) s.accounts,
        trace := s.trace ++ [StoreEvent.colWrite "current_balance" u] })
    ({ a with current_balance := a.current_balance + -amt })
    (find?_updCur u (a.current_balance + -amt) s.accounts a ha)]
  simp [log_transaction]

theorem transfer_savings_state (u : String) (amt : Money) (s : DBState) (a : AccountRec)
    (hle : ¬ amt ≤ 0)
    (ha : s.accounts.find? (fun x => x.username == u) = some a) :
    transfer_between_accounts u amt "savings" s =
      ({ s with
          accounts := updSav u (a.savings_balance + -amt)
            (updCur u (a.current_balance + amt) s.accounts),
          transactions := s.transactions ++
            [⟨s.nextTransId, u, "transfer", amt, "savings_to_current", s.now⟩],
          nextTransId := s.nextTransId + 1,
          trace := s.trace ++ [.colWrite "current_balance" u, .colWrite "savings_balance" u,
            .ledgerInsert u] }, none) := by
  rw [transfer_between_accounts, if_neg hle,
    if_neg (show ¬ ("savings" ∉ (["current", "savings"] : List String)) from by decide),
    if_neg (show ¬ ("savings" = "current") from by decide),
    if_pos (show "savings" = "savings" from rfl)]
  simp only [add_current_balance_found u amt s a ha]
  simp only [add_savings_balance_found u (-amt)
    ({ s with
        accounts := updCur u (a.current_balance + amt) s.accounts,
        trace := s.trace ++ [StoreEvent.colWrite "current_balance" u] })
    ({ a with current_balance := a.current_balance + amt })
    (find?_updCur u (a.current_balance + amt) s.accounts a ha)]
  simp [log_transaction]

/-- C2: for every amount > 0 and every source in {current, savings} of an
existing user, withdraw succeeds and decreases the selected balance by exactly
the amount — with no balance-sufficiency check, so nothing in the hypotheses
bounds the starting balance and the result may be negative — and appends
exactly one ledger record with kind `withdraw` whose amount field is the
positive magnitude, not the signed delta. -/
theorem withdraw_correct (u : String) (amt : Money) (target : String)
    (s : DBState) (a : AccountRec)
    (hamt : 0 < amt)
    (htarget : target = "current" ∨ target = "savings")
    (ha : s.accounts.find? (fun x => x.username == u) = some a) :
    (withdraw_from_account u amt target s).2 = none ∧
    balancesOf u (withdraw_from_account u amt target s).1 =
      some (if target = "current" then (a.current_balance - amt, a.savings_balance)
            else (a.current_balance, a.savings_balance - amt)) ∧
    (withdraw_from_account u amt target s).1.transactions =
      s.transactions ++ [⟨s.nextTransId, u, "withdraw", amt, target, s.now⟩] := by
  have hle : ¬ (amt ≤ 0) := not_le.mpr hamt
  rcases htarget with h | h <;> subst h
  · rw [withdraw_current_state u amt s a hle ha]
    refine ⟨rfl, ?_, rfl⟩
    simp only [balancesOf]
    rw [find?_updCur u (a.current_balance + -amt) s.accounts a ha]
    rfl
  · rw [withdraw_savings_state u amt s a hle ha]
    refine ⟨rfl, ?_, rfl⟩
    simp only [balancesOf]
    rw [find?_updSav u (a.savings_balance + -amt) s.accounts a ha]
    rfl

/-- Witness for C2: alice (current 100) withdraws 200 from current and is
driven to an overdraft of -100, with one `withdraw` record of magnitude 200. -/
theorem withdraw_correct_witness :
    (withdraw_from_account "alice" 200 "current" exState).2 = none ∧
    balancesOf "alice" (withdraw_from_account "alice" 200 "current" exState).1 =
      some (-100, 50) ∧
    (withdraw_from_account "alice" 200 "current" exState).1.transactions =
      [⟨1, "alice", "withdraw", 200, "current", 1000000000⟩] := by
  have h := withdraw_correct "alice" 200 "current" exState exAlice (by decide)
    (Or.inl rfl) (by decide)
  simpa [exState, exAlice] using h

/-- C3: transfer(amount, current) reaches exactly the final balances of
withdraw(amount, current) followed by deposit(amount, savings), but appends
one `current_to_savings` ledger record where the composition appends two. -/
theorem transfer_equiv_withdraw_deposit (u : String) (amt : Money)
    (s : DBState) (a : AccountRec)
    (hamt : 0 < amt)
    (ha : s.accounts.find? (fun x => x.username == u) = some a) :
    (transfer_between_accounts u amt "current" s).2 = none ∧
    (withdraw_from_account u amt "current" s).2 = none ∧
    (deposit_into_account u amt "savings"
      (withdraw_from_account u amt "current" s).1).2 = none ∧
    balancesOf u (transfer_between_accounts u amt "current" s).1 =
      balancesOf u (deposit_into_account u amt "savings"
        (withdraw_from_account u amt "current" s).1).1 ∧
    (transfer_between_accounts u amt "current" s).1.transactions =
      s.transactions ++ [⟨s.nextTransId, u, "transfer", amt, "current_to_savings", s.now⟩] ∧
    (deposit_into_account u amt "savings"
        (withdraw_from_account u amt "current" s).1).1.transactions =
      s.transactions ++
        [⟨s.nextTransId, u, "withdraw", amt, "current", s.now⟩,
         ⟨s.nextTransId + 1, u, "deposit", amt, "savings", s.now⟩] := by
  have hle : ¬ (amt ≤ 0) := not_le.mpr hamt
  have ha1 := find?_updCur u (a.current_balance + -amt) s.accounts a ha
  simp only [transfer_current_state u amt s a hle ha,
    withdraw_current_state u amt s a hle ha]
  simp only [deposit_savings_state u amt
    ({ s with
        accounts := updCur u (a.current_balance + -amt) s.accounts,
        transactions := s.transactions ++
          [⟨s.nextTransId, u, "withdraw", amt, "current", s.now⟩],
        nextTransId := s.nextTransId + 1,
        trace := s.trace ++ [StoreEvent.colWrite "current_balance" u,
          StoreEvent.ledgerInsert u] })
    ({ a with current_balance := a.current_balance + -amt }) hle ha1]
  simp [balancesOf]

/-- Witness for C3: alice (current 100, savings 50) moves 10 from current. -/
theorem transfer_equiv_witness :
    (transfer_between_accounts "alice" 10 "current" exState).2 = none ∧
    (withdraw_from_account "alice" 10 "current" exState).2 = none ∧
    (deposit_into_account "alice" 10 "savings"
      (withdraw_from_account "alice" 10 "current" exState).1).2 = none ∧
    balancesOf "alice" (transfer_between_accounts "alice" 10 "current" exState).1 =
      balancesOf "alice" (deposit_into_account "alice" 10 "savings"
        (withdraw_from_account "alice" 10 "current" exState).1).1 ∧
    (transfer_between_accounts "alice" 10 "current" exState).1.transactions =
      exState.transactions ++
        [⟨exState.nextTransId, "alice", "transfer", 10, "current_to_savings", exState.now⟩] ∧
    (deposit_into_account "alice" 10 "savings"
        (withdraw_from_account "alice" 10 "current" exState).1).1.transactions =
      exState.transactions ++
        [⟨exState.nextTransId, "alice", "withdraw", 10, "current", exState.now⟩,
         ⟨exState.nextTransId + 1, "alice", "deposit", 10, "savings", exState.now⟩] :=
  transfer_equiv_withdraw_deposit "alice" 10 exState exAlice (by decide) (by decide)

/-- C4: transfer with source savings mirrors the current case — savings down
by the amount, current up by the amount, one `savings_to_current` record — and
the ghost mutation trace shows both balance UPDATEs running strictly before
the ledger INSERT. -/
theorem transfer_savings_mirror (u : String) (amt : Money) (s : DBState) (a : AccountRec)
    (hamt : 0 < amt)
    (ha : s.accounts.find? (fun x => x.username == u) = some a) :
    (transfer_between_accounts u amt "savings" s).2 = none ∧
    balancesOf u (transfer_between_accounts u amt "savings" s).1 =
      some (a.current_balance + amt, a.savings_balance - amt) ∧
    (transfer_between_accounts u amt "savings" s).1.transactions =
      s.transactions ++ [⟨s.nextTransId, u, "transfer", amt, "savings_to_current", s.now⟩] ∧
    (transfer_between_accounts u amt "savings" s).1.trace =
      s.trace ++ [.colWrite "current_balance" u, .colWrite "savings_balance" u,
        .ledgerInsert u] := by
  have hle : ¬ (amt ≤ 0) := not_le.mpr hamt
  rw [transfer_savings_state u amt s a hle ha]
  refine ⟨rfl, ?_, rfl, rfl⟩
  simp only [balancesOf]
  rw [find?_updSav u (a.savings_balance + -amt) _ _
    (find?_updCur u (a.current_balance + amt) s.accounts a ha)]
  rfl

/-- Witness for C4: the spec scenario — transfer 10 from savings at
(current 100, savings 50) lands on (110, 40) with one mirror-labelled record,
mutations before the append. -/
theorem transfer_savings_mirror_witness :
    (transfer_between_accounts "alice" 10 "savings" exState).2 = none ∧
    balancesOf "alice" (transfer_between_accounts "alice" 10 "savings" exState).1 =
      some (110, 40) ∧
    (transfer_between_accounts "alice" 10 "savings" exState).1.transactions =
      [⟨1, "alice", "transfer", 10, "savings_to_current", 1000000000⟩] ∧
    (transfer_between_accounts "alice" 10 "savings" exState).1.trace =
      [.colWrite "current_balance" "alice", .colWrite "savings_balance" "alice",
       .ledgerInsert "alice"] := by
  have h := transfer_savings_mirror "alice" 10 exState exAlice (by decide) (by decide)
  simpa [exState, exAlice] using h

/-- C5: for every amount ≤ 0 and any selector, each of deposit, withdraw and
transfer fails with the invalid-amount error and returns the state unchanged:
no balance write, no ledger record. -/
theorem nonpositive_amount_rejected (u : String) (amt : Money) (sel : String)
    (s : DBState) (h : amt ≤ 0) :
    deposit_into_account u amt sel s = (s, some .invalidAmount) ∧
    withdraw_from_account u amt sel s = (s, some .invalidAmount) ∧
    transfer_between_accounts u amt sel s = (s, some .invalidAmount) :=
  ⟨by rw [deposit_into_account, if_pos h],
   by rw [withdraw_from_account, if_pos h],
   by rw [transfer_between_accounts, if_pos h]⟩

/-- Witness for C5: amount 0 and amount -1, on valid and invalid selectors. -/
theorem nonpositive_amount_rejected_witness :
    deposit_into_account "alice" 0 "current" exState = (exState, some .invalidAmount) ∧
    withdraw_from_account "alice" (-1) "savings" exState = (exState, some .invalidAmount) ∧
    transfer_between_accounts "alice" (-1) "crypto" exState = (exState, some .invalidAmount) :=
  ⟨(nonpositive_amount_rejected "alice" 0 "current" exState (by decide)).1,
   (nonpositive_amount_rejected "alice" (-1) "savings" exState (by decide)).2.1,
   (nonpositive_amount_rejected "alice" (-1) "crypto" exState (by decide)).2.2⟩

/-- C6: for every amount > 0 and any selector outside {current, savings},
each of deposit, withdraw and transfer fails with the invalid-selector error
and returns the state unchanged: no balance write, no ledger record. -/
theorem invalid_selector_rejected (u : String) (amt : Money) (sel : String)
    (s : DBState) (hamt : 0 < amt)
    (hsel : sel ∉ (["current", "savings"] : List String)) :
    deposit_into_account u amt sel s = (s, some .invalidAccountSelector) ∧
    withdraw_from_account u amt sel s = (s, some .invalidAccountSelector) ∧
    transfer_between_accounts u amt sel s = (s, some .invalidAccountSelector) := by
  have hle : ¬ (amt ≤ 0) := not_le.mpr hamt
  exact ⟨by rw [deposit_into_account, if_neg hle, if_pos hsel],
    by rw [withdraw_from_account, if_neg hle, if_pos hsel],
    by rw [transfer_between_accounts, if_neg hle, if_pos hsel]⟩

/-- Witness for C6: the spec boundary case — selector "crypto", amount 10. -/
theorem invalid_selector_rejected_witness :
    deposit_into_account "alice" 10 "crypto" exState =
      (exState, some .invalidAccountSelector) ∧
    withdraw_from_account "alice" 10 "crypto" exState =
      (exState, some .invalidAccountSelector) ∧
    transfer_between_accounts "alice" 10 "crypto" exState =
      (exState, some .invalidAccountSelector) :=
  invalid_selector_rejected "alice" 10 "crypto" exState (by decide) (by decide)

/-- C7: registering a username that already has a row in the account store
fails with the duplicate-user error (the UNIQUE constraint rejects the INSERT
and the uncaught IntegrityError rolls it back) and the whole state — in
particular the existing record and both of its balances — is unchanged. -/
theorem create_duplicate_user_rejected (hashFn : String → String)
    (u d p : String) (cb sb : Money) (s : DBState)
    (h : s.accounts.any (fun a => a.username == u) = true) :
    create_new_user hashFn u d p cb sb s = (s, some (.duplicateUser u)) := by
  rw [create_new_user, if_pos h]

/-- Witness for C7: re-registering alice fails and leaves the state intact. -/
theorem create_duplicate_user_rejected_witness :
    create_new_user (fun p => p) "alice" "Alice2" "pw" 7 7 exState =
      (exState, some (.duplicateUser "alice")) :=
  create_duplicate_user_rejected (fun p => p) "alice" "Alice2" "pw" 7 7 exState (by decide)

/-- C8: a column outside the allow-list makes both the getter and the setter
fail with the invalid-column error before touching storage (the setter returns
the state unchanged); an allow-listed column never raises it — the getter
returns the looked-up value and the setter reports no error. -/
theorem column_allow_list (c u : String) (v : ColumnValue) (s : DBState) :
    (c ∉ ALLOWED_COLUMNS →
      get_column_from_username c u s = .error (.invalidColumn c) ∧
      set_column_from_username c u v s = (s, some (.invalidColumn c))) ∧
    (c ∈ ALLOWED_COLUMNS →
      get_column_from_username c u s =
        .ok ((s.accounts.find? fun a => a.username == u).map (readColumn c)) ∧
      (set_column_from_username c u v s).2 = none) := by
  constructor
  · intro hc
    exact ⟨by rw [get_column_from_username, if_pos hc],
      by rw [set_column_from_username, if_pos hc]⟩
  · intro hc
    have hc2 : ¬ c ∉ ALLOWED_COLUMNS := fun hn => hn hc
    exact ⟨get_column_from_username_allowed c u s hc,
      by rw [set_column_from_username, if_neg hc2]⟩

/-- Witness for C8: the disallowed column "role" is rejected by getter and
setter with no state change; the allow-listed column "display_name" is not. -/
theorem column_allow_list_witness :
    (get_column_from_username "role" "alice" exState =
        .error (.invalidColumn "role") ∧
      set_column_from_username "role" "alice" (.strV "admin") exState =
        (exState, some (.invalidColumn "role"))) ∧
    (get_column_from_username "display_name" "alice" exState =
        .ok (some (.strV "Alice")) ∧
      (set_column_from_username "display_name" "alice" (.strV "Al") exState).2 = none) := by
  refine ⟨(column_allow_list "role" "alice" (.strV "admin") exState).1 (by decide), ?_, ?_⟩
  · have h := ((column_allow_list "display_name" "alice" (.strV "Al") exState).2 (by decide)).1
    rw [h]
    rfl
  · exact ((column_allow_list "display_name" "alice" (.strV "Al") exState).2 (by decide)).2

theorem get_current_balance_missing (u : String) (s : DBState)
    (hu : s.accounts.find? (fun x => x.username == u) = none) :
    get_current_balance u s = .error .noneBalance := by
  unfold get_current_balance
  rw [get_column_from_username_allowed "current_balance" u s (by decide), hu]
  rfl

/-- C10: deposit, withdraw and transfer called with a valid amount and
selector but a username with no account row all raise during the balance read
(`float(None)` inside the balance getter, modelled as the `noneBalance`
error), and the state at the raise is unchanged: no balance was written and
no ledger record was appended. -/
theorem missing_user_op_fails (u : String) (amt : Money) (sel : String)
    (s : DBState) (hamt : 0 < amt)
    (hsel : sel = "current" ∨ sel = "savings")
    (hu : s.accounts.find? (fun x => x.username == u) = none) :
    deposit_into_account u amt sel s = (s, some .noneBalance) ∧
    withdraw_from_account u amt sel s = (s, some .noneBalance) ∧
    transfer_between_accounts u amt sel s = (s, some .noneBalance) := by
  have hle : ¬ (amt ≤ 0) := not_le.mpr hamt
  have hcur := get_current_balance_missing u s hu
  have hsav : get_savings_balance u s = .error .noneBalance := by
    unfold get_savings_balance
    rw [get_column_from_username_allowed "savings_balance" u s (by decide), hu]
    rfl
  rcases hsel with h | h <;> subst h
  · refine ⟨?_, ?_, ?_⟩
    · rw [deposit_into_account, if_neg hle,
        if_neg (show ¬ ("current" ∉ (["current", "savings"] : List String)) from by decide),
        if_pos (show "current" = "current" from rfl)]
      unfold add_current_balance
      rw [hcur]
    · rw [withdraw_from_account, if_neg hle,
        if_neg (show ¬ ("current" ∉ (["current", "savings"] : List String)) from by decide),
        if_pos (show "current" = "current" from rfl)]
      unfold add_current_balance
      rw [hcur]
    · rw [transfer_between_accounts, if_neg hle,
        if_neg (show ¬ ("current" ∉ (["current", "savings"] : List String)) from by decide),
        if_pos (show "current" = "current" from rfl)]
      unfold add_current_balance
      rw [hcur]
  · refine ⟨?_, ?_, ?_⟩
    · rw [deposit_into_account, if_neg hle,
        if_neg (show ¬ ("savings" ∉ (["current", "savings"] : List String)) from by decide),
        if_neg (show ¬ ("savings" = "current") from by decide),
        if_pos (show "savings" = "savings" from rfl)]
      unfold add_savings_balance
      rw [hsav]
    · rw [withdraw_from_account, if_neg hle,
        if_neg (show ¬ ("savings" ∉ (["current", "savings"] : List String)) from by decide),
        if_neg (show ¬ ("savings" = "current") from by decide),
        if_pos (show "savings" = "savings" from rfl)]
      unfold add_savings_balance
      rw [hsav]
    · rw [transfer_between_accounts, if_neg hle,
        if_neg (show ¬ ("savings" ∉ (["current", "savings"] : List String)) from by decide),
        if_neg (show ¬ ("savings" = "current") from by decide),
        if_pos (show "savings" = "savings" from rfl)]
      unfold add_current_balance
      rw [hcur]

/-- Witness for C10: the unknown user "bob" makes all three operations fail
with no state change. -/
theorem missing_user_op_fails_witness :
    deposit_into_account "bob" 25 "current" exState = (exState, some .noneBalance) ∧
    withdraw_from_account "bob" 25 "current" exState = (exState, some .noneBalance) ∧
    transfer_between_accounts "bob" 25 "savings" exState = (exState, some .noneBalance) :=
  ⟨(missing_user_op_fails "bob" 25 "current" exState (by decide) (Or.inl rfl) (by decide)).1,
   (missing_user_op_fails "bob" 25 "current" exState (by decide) (Or.inl rfl) (by decide)).2.1,
   (missing_user_op_fails "bob" 25 "savings" exState (by decide) (Or.inr rfl) (by decide)).2.2⟩

/-- Modelled from the claim's words, for comparison only: a record is
"within the last 7 days" when `timestamp >= now - windowDays` with
windowDays = 7 days of seconds. -/
def withinLast7Days (now : Int) (t : TransactionRec) : Bool :=
  decide (now - 7 * 86400 ≤ t.timestamp)

/-- State for the C9 counterexample: the clock reads 7 days + 1 hour past the
epoch and alice has one record at timestamp 0, so that record is 7 days and
1 hour old. -/
def exState9 : DBState :=
  ⟨[exAlice], 2, [⟨1, "alice", "deposit", 25, "current", 0⟩], 2, 608400, []⟩

/-- Counterexample to C9 as stated: `get_transactions` returns alice's
timestamp-0 record even though no record of the state lies within the last
7 days — the SQL cutoff `date('now','-7 days')` truncates to midnight, so a
record 7 days + 1 hour old still passes the filter. -/
theorem get_transactions_not_7day_window :
    get_transactions false "alice" exState9 =
      [⟨1, "alice", "deposit", 25, "current", 0⟩] ∧
    (exState9.transactions.filter fun t =>
      t.username == "alice" && withinLast7Days exState9.now t) = [] := by
  have hf : (exState9.transactions.filter fun t =>
      t.username == "alice" && decide (sqlDateCutoff exState9.now ≤ t.timestamp)) =
      [⟨1, "alice", "deposit", 25, "current", 0⟩] := by decide
  constructor
  · rw [get_transactions, if_neg (by decide), hf, List.mergeSort_singleton]
  · decide

/-- C9 (amended): `get_transactions` never raises — on a storage fault for
the read it returns the empty list — and otherwise returns exactly the
records of the username whose timestamp is on or after midnight UTC of the
day seven days before now (the SQL cutoff, which also admits records between
7 and up to almost 8 days old), ordered by timestamp descending. -/
theorem get_transactions_window (u : String) (s : DBState) :
    get_transactions true u s = [] ∧
    (get_transactions false u s).Perm
      (s.transactions.filter fun t =>
        t.username == u && decide (sqlDateCutoff s.now ≤ t.timestamp)) ∧
    (get_transactions false u s).Pairwise fun a b => b.timestamp ≤ a.timestamp := by
  refine ⟨rfl, ?_, ?_⟩
  · rw [get_transactions, if_neg (by decide)]
    exact List.mergeSort_perm _ _
  · rw [get_transactions, if_neg (by decide)]
    have hp := @List.sorted_mergeSort TransactionRec
      (fun a b : TransactionRec => decide (b.timestamp ≤ a.timestamp))
      (fun a b c hab hbc => by
        simp only [decide_eq_true_eq] at hab hbc ⊢
        exact le_trans hbc hab)
      (fun a b => by
        simp only [Bool.or_eq_true, decide_eq_true_eq]
        exact le_total b.timestamp a.timestamp)
      (s.transactions.filter fun t =>
        t.username == u && decide (sqlDateCutoff s.now ≤ t.timestamp))
    exact hp.imp fun h => of_decide_eq_true h

end RiverBank
